import Mathlib

/-!
# Verification of `homework.py` (homework status poll bot)

Shallow embedding of the bot's per-cycle pipeline:
`get_api_answer` (API client), `check_response` (response validator),
`parse_status` (status interpreter), and the orchestrating loop body of
`main`, over a model of decoded JSON / Python values.
-/

set_option maxHeartbeats 1000000

namespace Homework

/-- A decoded JSON / Python value as manipulated by the script:
integers, strings, lists, string-keyed dicts and `None`. -/
inductive PyVal where
  | int (n : Int)
  | str (s : String)
  | list (xs : List PyVal)
  | dict (entries : List (String × PyVal))
  | none
deriving Repr

/-- Python truthiness (`if homework:`, `timestamp or ...`): zero, the empty
string, empty containers and `None` are falsy. -/
def pyTruthy : PyVal → Bool
  | .int n => n != 0
  | .str s => s != ""
  | .list xs => !xs.isEmpty
  | .dict d => !d.isEmpty
  | .none => false

/-- Python name of the runtime type, as interpolated by `f-strings`
(`f'{type(response)}'`). -/
def pyTypeName : PyVal → String
  | .int _ => "<class 'int'>"
  | .str _ => "<class 'str'>"
  | .list _ => "<class 'list'>"
  | .dict _ => "<class 'dict'>"
  | .none => "<class 'NoneType'>"

mutual

/-- Python `repr`, used when a dict/list is interpolated into an f-string. -/
def pyRepr : PyVal → String
  | .int n => toString n
  | .str s => "'" ++ s ++ "'"
  | .list xs => "[" ++ pyReprList xs ++ "]"
  | .dict d => "\x7b" ++ pyReprDict d ++ "\x7d"
  | .none => "None"

def pyReprList : List PyVal → String
  | [] => ""
  | [x] => pyRepr x
  | x :: y :: xs => pyRepr x ++ ", " ++ pyReprList (y :: xs)

def pyReprDict : List (String × PyVal) → String
  | [] => ""
  | [(k, v)] => "'" ++ k ++ "': " ++ pyRepr v
  | (k, v) :: e :: xs => "'" ++ k ++ "': " ++ pyRepr v ++ ", " ++ pyReprDict (e :: xs)

end

/-- Python `str()`, used when a value is interpolated into an f-string. -/
def pyStr : PyVal → String
  | .int n => toString n
  | .str s => s
  | .list xs => pyRepr (.list xs)
  | .dict d => pyRepr (.dict d)
  | .none => "None"

/-- Python `==` restricted to the value shapes above. -/
def pyEq : PyVal → PyVal → Bool
  | .int n, .int m => n == m
  | .str s, .str t => s == t
  | .list xs, .list ys => pyEqList xs ys
  | .dict d, .dict e => pyEqDict d e
  | .none, .none => true
  | _, _ => false
where
  pyEqList : List PyVal → List PyVal → Bool
    | [], [] => true
    | x :: xs, y :: ys => pyEq x y && pyEqList xs ys
    | _, _ => false
  pyEqDict : List (String × PyVal) → List (String × PyVal) → Bool
    | [], [] => true
    | (k, v) :: xs, (l, w) :: ys => k == l && pyEq v w && pyEqDict xs ys
    | _, _ => false

/-- First-match lookup in a dict, the model of `d[k]` / `d.get(k)` on a
dict whose keys are unique (Python dicts cannot hold duplicate keys). -/
def dictLookup (d : List (String × PyVal)) (k : String) : Option PyVal :=
  match d with
  | [] => Option.none
  | (l, v) :: rest => if l = k then some v else dictLookup rest k

/-- `k in d` for a dict. -/
def hasKey (d : List (String × PyVal)) (k : String) : Bool :=
  (dictLookup d k).isSome

/-- The errors the script can raise.  `keyError`, `urlError` and
`paramError` stand for the classes imported from the repository's
`exceptions` module.

Modelled from the spec: the `exceptions` module itself is not in the
sources; per the design notes these are ordinary descriptive-payload
error types (`KeyError/URLError/ParamError`), so `str(e)` is the payload
message.  `raisedStr` is the `TypeError` Python produces when a plain
string is raised (`raise (f'...')` in `get_api_answer`): its text is
always `exceptions must derive from BaseException`. -/
inductive PyError where
  | keyError (msg : String)
  | urlError (msg : String)
  | paramError (msg : String)
  | typeError (msg : String)
  | requestException (msg : String)
  | jsonDecodeError (msg : String)
  | attributeError (msg : String)
  | raisedStr
deriving Repr

/-- `str(error)`, as interpolated into the orchestrator's diagnostic. -/
def errText : PyError → String
  | .keyError m => m
  | .urlError m => m
  | .paramError m => m
  | .typeError m => m
  | .requestException m => m
  | .jsonDecodeError m => m
  | .attributeError m => m
  | .raisedStr => "exceptions must derive from BaseException"

/-- Does the second character list start with the first? -/
def charsStart : List Char → List Char → Bool
  | [], _ => true
  | _ :: _, [] => false
  | c :: cs, d :: ds => c == d && charsStart cs ds

/-- Substring test on character lists: Python `sub in s` for strings. -/
def charsSub (sub : List Char) : List Char → Bool
  | [] => sub.isEmpty
  | c :: t => charsStart sub (c :: t) || charsSub sub t

/-- Python `key in container` for a string key: key membership on dicts,
element membership on lists, substring test on strings, `TypeError` on
non-containers. -/
def pyContains (v : PyVal) (key : String) : Except PyError Bool :=
  match v with
  | .dict d => .ok (hasKey d key)
  | .list xs => .ok (xs.any (fun x => pyEq x (.str key)))
  | .str s => .ok (charsSub key.data s.data)
  | .int _ => .error (.typeError "argument of type 'int' is not iterable")
  | .none => .error (.typeError "argument of type 'NoneType' is not iterable")

/-- Python subscript `v[key]` with a string key. -/
def pySubscript (v : PyVal) (key : String) : Except PyError PyVal :=
  match v with
  | .dict d =>
    match dictLookup d key with
    | some w => .ok w
    | Option.none => .error (.keyError key)
  | _ => .error (.typeError "value is not subscriptable with a string key")

/-- `HOMEWORK_VERDICTS`: the static verdict table of the script. -/
def HOMEWORK_VERDICTS : List (String × String) :=
  [("approved", "Работа проверена: ревьюеру всё понравилось. Ура!"),
   ("reviewing", "Работа взята на проверку ревьюером."),
   ("rejected", "Работа проверена: у ревьюера есть замечания.")]

/-- `ENDPOINT` constant of the script. -/
def ENDPOINT : String :=
  "https://practicum.yandex.ru/api/user_api/homework_statuses/"

/-- `RETRY_PERIOD` constant of the script. -/
def RETRY_PERIOD : Nat := 600

/-- `HOMEWORK_VERDICTS.get(x)`: hash lookup in the verdict table.  A list
or dict key is unhashable and raises `TypeError`; any other non-matching
key yields `None` (modelled as `Option.none`). -/
def verdictFor : PyVal → Except PyError (Option String)
  | .str s =>
    .ok (match HOMEWORK_VERDICTS.find? (fun p => p.1 = s) with
         | some p => some p.2
         | Option.none => Option.none)
  | .list _ => .error (.typeError "unhashable type: 'list'")
  | .dict _ => .error (.typeError "unhashable type: 'dict'")
  | .int _ => .ok Option.none
  | .none => .ok Option.none

/-- The `from_date` request parameter: `timestamp or int(time.time())` in
`get_api_answer` — the wall clock `now` when the cursor is falsy (`0`),
the cursor itself otherwise. -/
def from_date_param (timestamp : PyVal) (now : Int) : PyVal :=
  if pyTruthy timestamp then timestamp else .int now

/-- The URL the request was issued to, endpoint plus query string
(`response.request.url`). -/
def requestUrl (fromDate : PyVal) : String :=
  ENDPOINT ++ "?from_date=" ++ pyStr fromDate

/-- One poll's interaction with the outside world: either the transport
fails (`requests.RequestException`), or an HTTP response arrives with a
status code and a body that decodes to a value or fails to decode. -/
inductive HttpOutcome where
  | transportFail (msg : String)
  | response (status : Nat) (body : Except String PyVal)

/-- The `try:` block of `get_api_answer`: perform the request; raise
`URLError` (with the requested URL) on a non-200 status; decode the body;
raise `ParamError` when `current_date` is absent; return the decoded
payload. -/
def get_api_answer_try (timestamp : PyVal) (now : Int) (o : HttpOutcome) :
    Except PyError PyVal :=
  let current_time := from_date_param timestamp now
  match o with
  | .transportFail msg => .error (.requestException msg)
  | .response status body =>
    if status ≠ 200 then
      .error (.urlError ("Сбой при обращении к URL " ++ requestUrl current_time))
    else
      match body with
      | .error msg => .error (.jsonDecodeError msg)
      | .ok response_data =>
        match pyContains response_data "current_date" with
        | .error e => .error e
        | .ok true => .ok response_data
        | .ok false => .error (.paramError "Отсутствует параметр `current_date`")

/-- `get_api_answer`: the `try:` block wrapped in the two `except`
clauses.  Both handlers execute `raise (f'...')` — raising a *string* —
so every failure of the body surfaces as the interpreter-level
`TypeError` `exceptions must derive from BaseException`. -/
def get_api_answer (timestamp : PyVal) (now : Int) (o : HttpOutcome) :
    Except PyError PyVal :=
  match get_api_answer_try timestamp now o with
  | .ok v => .ok v
  | .error _ => .error .raisedStr

/-- `check_response`: reject a non-dict payload (`TypeError`), a payload
without the key `homeworks` (`KeyError`), and a `homeworks` value that is
not a list (`TypeError`); otherwise return the list of records. -/
def check_response (response : PyVal) : Except PyError (List PyVal) :=
  match response with
  | .dict d =>
    if hasKey d "homeworks" = false then
      .error (.keyError ("Ответ сервера не содержит ключ \"homeworks\": " ++
        pyRepr (.dict d)))
    else
      match dictLookup d "homeworks" with
      | some (.list xs) => .ok xs
      | _ => .error (.typeError
          "В ответе API домашки под ключом `homeworks` данные приходят не в виде списка.")
  | v => .error (.typeError ("Неправильный тип данных ответа сервера: " ++ pyTypeName v))

/-- `parse_status`: require the key `homework_name`, require the key
`status`, look the status up in `HOMEWORK_VERDICTS` and fail on a falsy
verdict; on success interpolate name and verdict into the notification
string.  The argument may be any value (`main` also calls it on the
whole — empty — homework list), so the membership test follows Python's
generic `in` and `.get` is only available on dicts. -/
def parse_status (homework : PyVal) : Except PyError String :=
  match pyContains homework "homework_name" with
  | .error e => .error e
  | .ok false => .error (.keyError "В ответе отсутствует ключ homework_name")
  | .ok true =>
    match homework with
    | .dict d =>
      let homework_name := (dictLookup d "homework_name").getD .none
      if hasKey d "status" = false then
        .error (.keyError "В ответе API домашки нет ключа `status`.")
      else
        match verdictFor ((dictLookup d "status").getD .none) with
        | .error e => .error e
        | .ok verdict =>
          if (verdict.getD "") = "" then
            .error (.keyError
              "API домашки возвращает недокументированный статус домашней работы.")
          else
            .ok ("Изменился статус проверки работы \"" ++ pyStr homework_name ++
              "\". " ++ verdict.getD "")
    | _ => .error (.attributeError "object has no attribute 'get'")

/-- Observable effects of one loop iteration: the arguments the Status
Interpreter (`parse_status`) was invoked on, and the messages handed to
the Notifier (`send_message`), in order.  `send_message` swallows its own
delivery failures, so a Notifier call is recorded regardless of delivery. -/
structure CycleTrace where
  interpreterCalls : List PyVal
  notifications : List String
deriving Repr

/-- The `try:` block of one iteration of `main`'s loop:
`get_api_answer`, `check_response`, then — if the record list is truthy —
`parse_status` on its first element followed by `send_message`, else
`parse_status` on the (empty) list itself; finally
`timestamp = response['current_date']`.  Returns the trace together with
the new cursor value, or the escaping error. -/
def runPipeline (timestamp : PyVal) (now : Int) (o : HttpOutcome) :
    CycleTrace × Except PyError PyVal :=
  match get_api_answer timestamp now o with
  | .error e => (⟨[], []⟩, .error e)
  | .ok response =>
    match check_response response with
    | .error e => (⟨[], []⟩, .error e)
    | .ok homework =>
      match homework with
      | h :: _ =>
        match parse_status h with
        | .error e => (⟨[h], []⟩, .error e)
        | .ok homework_status =>
          match pySubscript response "current_date" with
          | .error e => (⟨[h], [homework_status]⟩, .error e)
          | .ok ts => (⟨[h], [homework_status]⟩, .ok ts)
      | [] =>
        match parse_status (.list []) with
        | .error e => (⟨[.list []], []⟩, .error e)
        | .ok _ =>
          match pySubscript response "current_date" with
          | .error e => (⟨[.list []], []⟩, .error e)
          | .ok ts => (⟨[.list []], []⟩, .ok ts)

/-- Orchestrator state across iterations: the cursor `timestamp` and the
Last-Error Memo `last_send['error']`. -/
structure BotState where
  timestamp : PyVal
  lastError : Option String
deriving Repr

/-- One full iteration of `main`'s `while True:` loop: run the pipeline;
on success keep the new cursor; on failure format
`f'Сбой в работе программы: {error}'` and, when it differs from the
Last-Error Memo, notify and update the memo, otherwise suppress. -/
def mainCycle (st : BotState) (now : Int) (o : HttpOutcome) :
    BotState × CycleTrace :=
  match runPipeline st.timestamp now o with
  | (tr, .ok ts) => ({ st with timestamp := ts }, tr)
  | (tr, .error e) =>
    let message := "Сбой в работе программы: " ++ errText e
    if st.lastError = some message then (st, tr)
    else ({ st with lastError := some message },
          ⟨tr.interpreterCalls, tr.notifications ++ [message]⟩)

/-- Iterate `mainCycle` over a list of per-cycle worlds, collecting each
cycle's trace. -/
def runCycles (st : BotState) : List (Int × HttpOutcome) → BotState × List CycleTrace
  | [] => (st, [])
  | (now, o) :: rest =>
    let p := mainCycle st now o
    let q := runCycles p.1 rest
    (q.1, p.2 :: q.2)

/-- Error kinds of the spec taxonomy mapped to the raise sites of
`parse_status`: `MissingField` is a missing `homework_name` or `status`
key. -/
def missingFieldKind : PyError → Bool
  | .keyError m =>
    m = "В ответе отсутствует ключ homework_name" ||
    m = "В ответе API домашки нет ключа `status`."
  | _ => false

/-- `UnknownStatus` is the undocumented-status raise site of
`parse_status`. -/
def unknownStatusKind : PyError → Bool
  | .keyError m => m = "API домашки возвращает недокументированный статус домашней работы."
  | _ => false

/- ### Helper lemmas -/

theorem hasKey_of_lookup {d : List (String × PyVal)} {k : String} {v : PyVal}
    (h : dictLookup d k = some v) : hasKey d k = true := by
  simp [hasKey, h]

theorem get_api_answer_ok_contains {ts : PyVal} {now : Int} {o : HttpOutcome}
    {r : PyVal} (h : get_api_answer ts now o = .ok r) :
    pyContains r "current_date" = .ok true := by
  cases htry : get_api_answer_try ts now o with
  | error e =>
    rw [get_api_answer, htry] at h
    exact absurd h (by simp)
  | ok v =>
    rw [get_api_answer, htry] at h
    simp only [Except.ok.injEq] at h
    subst h
    unfold get_api_answer_try at htry
    cases o with
    | transportFail msg => exact absurd htry (by simp)
    | response status body =>
      by_cases hs : status = 200
      · simp only [hs, ne_eq, not_true_eq_false, if_false] at htry
        cases body with
        | error msg => exact absurd htry (by simp)
        | ok rd =>
          simp only [] at htry
          cases hc : pyContains rd "current_date" with
          | error e => rw [hc] at htry; exact absurd htry (by simp)
          | ok b =>
            rw [hc] at htry
            cases b with
            | true =>
              simp only [Except.ok.injEq] at htry
              rw [← htry]
              exact hc
            | false => exact absurd htry (by simp)
      · simp only [ne_eq, hs, not_false_eq_true, if_true] at htry
        exact absurd htry (by simp)

theorem check_response_ok_dict {r : PyVal} {xs : List PyVal}
    (h : check_response r = .ok xs) :
    ∃ d, r = .dict d ∧ dictLookup d "homeworks" = some (.list xs) := by
  cases r with
  | dict d =>
    refine ⟨d, rfl, ?_⟩
    rw [show check_response (.dict d) =
        (if hasKey d "homeworks" = false then
          .error (.keyError ("Ответ сервера не содержит ключ \"homeworks\": " ++
            pyRepr (.dict d)))
        else
          match dictLookup d "homeworks" with
          | some (.list xs) => .ok xs
          | _ => .error (.typeError
              "В ответе API домашки под ключом `homeworks` данные приходят не в виде списка."))
      from rfl] at h
    by_cases hk : hasKey d "homeworks" = false
    · rw [if_pos hk] at h; exact absurd h (by simp)
    · rw [if_neg hk] at h
      cases hl : dictLookup d "homeworks" with
      | none => rw [hl] at h; exact absurd h (by simp)
      | some w =>
        rw [hl] at h
        cases w with
        | list ys =>
          simp only [Except.ok.injEq] at h
          rw [h]
        | int n => exact absurd h (by simp)
        | str s => exact absurd h (by simp)
        | dict e => exact absurd h (by simp)
        | none => exact absurd h (by simp)
  | int n => exact absurd h (by simp [check_response])
  | str s => exact absurd h (by simp [check_response])
  | list ys => exact absurd h (by simp [check_response])
  | none => exact absurd h (by simp [check_response])

theorem contains_dict_subscript {d : List (String × PyVal)} {k : String}
    (h : pyContains (.dict d) k = .ok true) :
    ∃ w, pySubscript (.dict d) k = .ok w := by
  simp only [pyContains, Except.ok.injEq] at h
  cases hl : dictLookup d k with
  | none => rw [hasKey, hl] at h; exact absurd h (by simp)
  | some w => exact ⟨w, by simp [pySubscript, hl]⟩

theorem parse_status_nil :
    parse_status (.list []) =
      .error (.keyError "В ответе отсутствует ключ homework_name") := rfl

theorem runPipeline_error_no_notification {ts : PyVal} {now : Int}
    {o : HttpOutcome} {tr : CycleTrace} {e : PyError}
    (h : runPipeline ts now o = (tr, .error e)) : tr.notifications = [] := by
  unfold runPipeline at h
  cases hga : get_api_answer ts now o with
  | error e0 =>
    simp only [hga, Prod.mk.injEq] at h
    rw [← h.1]
  | ok response =>
    simp only [hga] at h
    cases hcr : check_response response with
    | error e0 =>
      simp only [hcr, Prod.mk.injEq] at h
      rw [← h.1]
    | ok homework =>
      simp only [hcr] at h
      obtain ⟨d, rfl, hl⟩ := check_response_ok_dict hcr
      obtain ⟨w, hsub⟩ := contains_dict_subscript (get_api_answer_ok_contains hga)
      cases homework with
      | nil =>
        simp only [parse_status_nil, Prod.mk.injEq] at h
        rw [← h.1]
      | cons h1 t =>
        cases hps : parse_status h1 with
        | error e0 =>
          simp only [hps, Prod.mk.injEq] at h
          rw [← h.1]
        | ok m =>
          simp only [hps, hsub, Prod.mk.injEq] at h
          exact absurd h.2 (by simp)

theorem get_api_answer_ok_shape {ts : PyVal} {now : Int} {o : HttpOutcome}
    {r : PyVal} (h : get_api_answer ts now o = .ok r) :
    o = .response 200 (.ok r) := by
  cases htry : get_api_answer_try ts now o with
  | error e =>
    rw [get_api_answer, htry] at h
    exact absurd h (by simp)
  | ok v =>
    rw [get_api_answer, htry] at h
    simp only [Except.ok.injEq] at h
    subst h
    unfold get_api_answer_try at htry
    cases o with
    | transportFail msg => exact absurd htry (by simp)
    | response status body =>
      by_cases hs : status = 200
      · subst hs
        simp only [ne_eq, not_true_eq_false, if_false] at htry
        cases body with
        | error msg => exact absurd htry (by simp)
        | ok rd =>
          simp only [] at htry
          cases hc : pyContains rd "current_date" with
          | error e => rw [hc] at htry; exact absurd htry (by simp)
          | ok b =>
            rw [hc] at htry
            cases b with
            | true =>
              simp only [Except.ok.injEq] at htry
              rw [htry]
            | false => exact absurd htry (by simp)
      · simp only [ne_eq, hs, not_false_eq_true, if_true] at htry
        exact absurd htry (by simp)

theorem runPipeline_ok_shape {ts : PyVal} {now : Int} {o : HttpOutcome}
    {tr : CycleTrace} {t : PyVal} (h : runPipeline ts now o = (tr, .ok t)) :
    ∃ r, o = .response 200 (.ok r) ∧ pySubscript r "current_date" = .ok t := by
  unfold runPipeline at h
  cases hga : get_api_answer ts now o with
  | error e0 =>
    simp only [hga] at h
    exact absurd h (by simp)
  | ok response =>
    simp only [hga] at h
    refine ⟨response, get_api_answer_ok_shape hga, ?_⟩
    cases hcr : check_response response with
    | error e0 =>
      simp only [hcr] at h
      exact absurd h (by simp)
    | ok homework =>
      simp only [hcr] at h
      cases homework with
      | nil =>
        simp only [parse_status_nil] at h
        exact absurd h (by simp)
      | cons h1 tl =>
        cases hps : parse_status h1 with
        | error e0 =>
          simp only [hps] at h
          exact absurd h (by simp)
        | ok m =>
          simp only [hps] at h
          cases hsub : pySubscript response "current_date" with
          | error e0 =>
            simp only [hsub] at h
            exact absurd h (by simp)
          | ok w =>
            simp only [hsub, Prod.mk.injEq, Except.ok.injEq] at h
            rw [← h.2]

theorem mainCycle_ok {st : BotState} {now : Int} {o : HttpOutcome}
    {tr : CycleTrace} {t : PyVal}
    (h : runPipeline st.timestamp now o = (tr, .ok t)) :
    mainCycle st now o = ({ st with timestamp := t }, tr) := by
  unfold mainCycle
  rw [h]

theorem mainCycle_error {st : BotState} {now : Int} {o : HttpOutcome}
    {tr : CycleTrace} {e : PyError}
    (h : runPipeline st.timestamp now o = (tr, .error e)) :
    mainCycle st now o =
      (if st.lastError = some ("Сбой в работе программы: " ++ errText e) then
        (st, tr)
      else
        ({ st with lastError := some ("Сбой в работе программы: " ++ errText e) },
         ⟨tr.interpreterCalls,
          tr.notifications ++ ["Сбой в работе программы: " ++ errText e]⟩)) := by
  unfold mainCycle
  rw [h]

/- ### Claim theorems -/

/-- Claim C1 (code bug): on the structurally valid response
`{"homeworks": [], "current_date": 2000}` the loop body does NOT behave
as specified: the `else` branch runs `parse_status(homework)` on the
empty record list itself, which raises (`homework_name` is not a member
of `[]`), so the Status Interpreter IS invoked, an error notification IS
sent (memo permitting), and the cursor stays at its old value `1000`
instead of becoming `2000`. -/
theorem c1_empty_homeworks_cycle :
    mainCycle ⟨.int 1000, Option.none⟩ 777
      (.response 200 (.ok (.dict [("homeworks", .list []),
        ("current_date", .int 2000)]))) =
    (⟨.int 1000,
      some "Сбой в работе программы: В ответе отсутствует ключ homework_name"⟩,
     ⟨[.list []],
      ["Сбой в работе программы: В ответе отсутствует ключ homework_name"]⟩) := rfl

/-- Claim C7 (code bug): `get_api_answer`'s `try:` body does raise
`URLError` carrying the full requested URL on a non-200 status, but both
`except` handlers execute `raise (f'...')` — raising a plain string — so
the error that actually escapes `get_api_answer` is, for a non-200
status, for a transport failure and for an undecodable body alike, the
same `TypeError` with text `exceptions must derive from BaseException`:
the three distinct kinds (and the URL) never surface. -/
theorem c7_api_client_errors_collapse :
    get_api_answer_try (.int 10) 777
        (.response 500 (.ok (.dict [("current_date", .int 1)]))) =
      .error (.urlError
        "Сбой при обращении к URL https://practicum.yandex.ru/api/user_api/homework_statuses/?from_date=10") ∧
    get_api_answer (.int 10) 777
        (.response 500 (.ok (.dict [("current_date", .int 1)]))) =
      .error .raisedStr ∧
    get_api_answer (.int 10) 777 (.transportFail "connection refused") =
      .error .raisedStr ∧
    get_api_answer (.int 10) 777
        (.response 200 (.error "Expecting value: line 1 column 1 (char 0)")) =
      .error .raisedStr ∧
    errText .raisedStr = "exceptions must derive from BaseException" :=
  ⟨rfl, rfl, rfl, rfl, rfl⟩

/-- Claim C8, counterexample: a record whose `homework_name` is present
but empty is NOT rejected — `parse_status` only tests key membership, so
it succeeds and interpolates the empty name. -/
theorem c8_empty_name_accepted :
    parse_status (.dict [("homework_name", .str ""),
        ("status", .str "approved")]) =
      .ok "Изменился статус проверки работы \"\". Работа проверена: ревьюеру всё понравилось. Ура!" := rfl

/-- Claim C8 (amended): the Status Interpreter fails with the
MissingField-kind error exactly when the `homework_name` key is absent;
presence of the key suffices, its value (even empty) is never checked. -/
theorem c8_missing_name_rejected (d : List (String × PyVal))
    (h : hasKey d "homework_name" = false) :
    parse_status (.dict d) =
      .error (.keyError "В ответе отсутствует ключ homework_name") := by
  unfold parse_status
  simp [pyContains, h]

/-- Witness for `c8_missing_name_rejected` at a record lacking
`homework_name`. -/
theorem c8_missing_name_rejected_witness :
    parse_status (.dict [("status", .str "approved")]) =
      .error (.keyError "В ответе отсутствует ключ homework_name") :=
  c8_missing_name_rejected [("status", .str "approved")] rfl

/-- Claim C9, counterexample: the cursor CAN decrease.  A fully
successful cycle overwrites the cursor with whatever `current_date` the
API returned; from cursor `1000`, a valid response with
`current_date = 5` drops the cursor to `5`. -/
theorem c9_cursor_decreases :
    (mainCycle ⟨.int 1000, Option.none⟩ 777 (.response 200 (.ok (.dict
        [("homeworks", .list [.dict [("homework_name", .str "hw"),
            ("status", .str "approved")]]),
         ("current_date", .int 5)])))).1.timestamp = .int 5 ∧
    (5 : Int) < 1000 :=
  ⟨rfl, by decide⟩

/-- Claim C9 (amended): in every cycle the cursor is either left
unchanged or set to the `current_date` value of that cycle's decoded
200-response; nothing in the code compares that value with the previous
cursor, so monotonicity holds only if the API supplies non-decreasing
`current_date` values. -/
theorem c9_cursor_changes_only_to_current_date (st : BotState) (now : Int)
    (o : HttpOutcome) :
    (mainCycle st now o).1.timestamp = st.timestamp ∨
    ∃ r, o = .response 200 (.ok r) ∧
      pySubscript r "current_date" = .ok ((mainCycle st now o).1.timestamp) := by
  cases hp : runPipeline st.timestamp now o with
  | mk tr res =>
    cases res with
    | ok t =>
      right
      obtain ⟨r, ho, hsub⟩ := runPipeline_ok_shape hp
      rw [mainCycle_ok hp]
      exact ⟨r, ho, hsub⟩
    | error e =>
      left
      rw [mainCycle_error hp]
      by_cases hm : st.lastError =
          some ("Сбой в работе программы: " ++ errText e)
      · rw [if_pos hm]
      · rw [if_neg hm]

/-- Claim C10: the `from_date` parameter is
`timestamp or int(time.time())` — the wall clock when the cursor is `0`,
the cursor itself for every nonzero cursor. -/
theorem c10_from_date (now : Int) :
    from_date_param (.int 0) now = .int now ∧
    ∀ n : Int, n ≠ 0 → from_date_param (.int n) now = .int n := by
  constructor
  · rfl
  · intro n hn
    unfold from_date_param
    simp [pyTruthy, hn]

/-- Witness for `c10_from_date` at `now = 55`, nonzero cursor `7`. -/
theorem c10_from_date_witness :
    from_date_param (.int 0) 55 = .int 55 ∧
    from_date_param (.int 7) 55 = .int 7 :=
  ⟨(c10_from_date 55).1, (c10_from_date 55).2 7 (by decide)⟩

/-- Claim C4: `check_response` fails on the first violated check, in
order — non-dict payload (`TypeError` naming the runtime type), missing
`homeworks` key (`KeyError`), non-list `homeworks` value (`TypeError`) —
and whenever the validator fails inside a cycle, `parse_status` is never
invoked in that cycle. -/
theorem c4_validator_rejects (v : PyVal) (d : List (String × PyVal)) :
    ((∀ d0, v ≠ .dict d0) →
      check_response v =
        .error (.typeError ("Неправильный тип данных ответа сервера: " ++ pyTypeName v))) ∧
    (hasKey d "homeworks" = false →
      check_response (.dict d) =
        .error (.keyError ("Ответ сервера не содержит ключ \"homeworks\": " ++
          pyRepr (.dict d)))) ∧
    (∀ w, dictLookup d "homeworks" = some w → (∀ xs, w ≠ .list xs) →
      check_response (.dict d) =
        .error (.typeError
          "В ответе API домашки под ключом `homeworks` данные приходят не в виде списка.")) ∧
    (∀ ts now o resp e, get_api_answer ts now o = .ok resp →
      check_response resp = .error e →
      (runPipeline ts now o).1.interpreterCalls = []) := by
  refine ⟨?_, ?_, ?_, ?_⟩
  · intro hnd
    cases v with
    | dict d0 => exact absurd rfl (hnd d0)
    | int n => rfl
    | str s => rfl
    | list xs => rfl
    | none => rfl
  · intro hk
    simp only [check_response]
    rw [if_pos hk]
  · intro w hl hnl
    have hk : hasKey d "homeworks" = true := hasKey_of_lookup hl
    simp only [check_response]
    rw [if_neg (by simp [hk]), hl]
    cases w with
    | list xs => exact absurd rfl (hnl xs)
    | int n => rfl
    | str s => rfl
    | dict e0 => rfl
    | none => rfl
  · intro ts now o resp e hga hcr
    unfold runPipeline
    simp [hga, hcr]

/-- Witness for `c4_validator_rejects`: a string payload, a dict without
`homeworks`, a dict whose `homeworks` is a string, and a cycle whose
validator failure yields no interpreter call. -/
theorem c4_validator_rejects_witness :
    check_response (.str "oops") =
      .error (.typeError "Неправильный тип данных ответа сервера: <class 'str'>") ∧
    check_response (.dict [("current_date", .int 1)]) =
      .error (.keyError
        "Ответ сервера не содержит ключ \"homeworks\": \x7b'current_date': 1\x7d") ∧
    check_response (.dict [("homeworks", .str "hw")]) =
      .error (.typeError
        "В ответе API домашки под ключом `homeworks` данные приходят не в виде списка.") ∧
    (runPipeline (.int 1) 2 (.response 200 (.ok (.str "current_date")))).1.interpreterCalls = [] :=
  ⟨(c4_validator_rejects (.str "oops") []).1 (fun d0 h => PyVal.noConfusion h),
   (c4_validator_rejects (.str "oops") [("current_date", .int 1)]).2.1 rfl,
   (c4_validator_rejects (.str "oops") [("homeworks", .str "hw")]).2.2.1
     (.str "hw") rfl (fun xs h => PyVal.noConfusion h),
   (c4_validator_rejects (.str "oops") []).2.2.2 (.int 1) 2
     (.response 200 (.ok (.str "current_date"))) (.str "current_date")
     (.typeError "Неправильный тип данных ответа сервера: <class 'str'>")
     (by rfl) rfl⟩

/-- Claim C5: a record without the `status` key makes `parse_status`
fail with a MissingField-kind `KeyError`; a record (with
`homework_name`) whose string `status` is none of `approved`,
`reviewing`, `rejected` makes it fail with the UnknownStatus-kind
`KeyError`; and a cycle whose pipeline fails sends no success
notification. -/
theorem c5_interpreter_rejects (d : List (String × PyVal)) :
    (hasKey d "status" = false →
      ∃ e, parse_status (.dict d) = .error e ∧ missingFieldKind e = true) ∧
    (∀ s, hasKey d "homework_name" = true →
      dictLookup d "status" = some (.str s) →
      s ≠ "approved" → s ≠ "reviewing" → s ≠ "rejected" →
      parse_status (.dict d) =
        .error (.keyError
          "API домашки возвращает недокументированный статус домашней работы.") ∧
      unknownStatusKind (.keyError
          "API домашки возвращает недокументированный статус домашней работы.") = true) ∧
    (∀ ts now o tr e, runPipeline ts now o = (tr, .error e) →
      tr.notifications = []) := by
  refine ⟨?_, ?_, ?_⟩
  · intro hs
    by_cases hn : hasKey d "homework_name" = false
    · exact ⟨.keyError "В ответе отсутствует ключ homework_name",
        c8_missing_name_rejected d hn, by simp [missingFieldKind]⟩
    · refine ⟨.keyError "В ответе API домашки нет ключа `status`.", ?_,
        by simp [missingFieldKind]⟩
      unfold parse_status
      simp only [Bool.not_eq_false] at hn
      simp [pyContains, hn, hs]
  · intro s hn hsl h1 h2 h3
    refine ⟨?_, by simp [unknownStatusKind]⟩
    have hk : hasKey d "status" = true := hasKey_of_lookup hsl
    have hfind : HOMEWORK_VERDICTS.find? (fun p => p.1 = s) = Option.none := by
      rw [List.find?_eq_none]
      intro x hx
      fin_cases hx <;> simp [Ne.symm h1, Ne.symm h2, Ne.symm h3]
    unfold parse_status
    simp [pyContains, hn, hk, hsl, verdictFor, hfind]
  · exact fun ts now o tr e h => runPipeline_error_no_notification h

/-- Witness for `c5_interpreter_rejects`: a record without `status`, and
a record with the unknown status `archived`; a concrete failing cycle
(non-200) with no success notification. -/
theorem c5_interpreter_rejects_witness :
    (∃ e, parse_status (.dict [("homework_name", .str "hw")]) = .error e ∧
      missingFieldKind e = true) ∧
    parse_status (.dict [("homework_name", .str "hw"),
        ("status", .str "archived")]) =
      .error (.keyError
        "API домашки возвращает недокументированный статус домашней работы.") ∧
    (runPipeline (.int 1) 2 (.response 500 (.ok .none))).1.notifications = [] :=
  ⟨(c5_interpreter_rejects [("homework_name", .str "hw")]).1 rfl,
   ((c5_interpreter_rejects [("homework_name", .str "hw"),
        ("status", .str "archived")]).2.1 "archived" rfl rfl
      (by decide) (by decide) (by decide)).1,
   (c5_interpreter_rejects []).2.2 (.int 1) 2 (.response 500 (.ok .none))
     ⟨[], []⟩ .raisedStr rfl⟩

/-- Claim C6: for a record with a string `homework_name` and a `status`
present in the verdict table, `parse_status` returns the notification
string interpolating the name and then the fixed verdict text, and the
verdict table has exactly the three entries `approved`, `reviewing`,
`rejected`. -/
theorem c6_success_message (d : List (String × PyVal)) (name s v : String)
    (h1 : dictLookup d "homework_name" = some (.str name))
    (h2 : dictLookup d "status" = some (.str s))
    (h3 : (s, v) ∈ HOMEWORK_VERDICTS) :
    parse_status (.dict d) =
      .ok ("Изменился статус проверки работы \"" ++ name ++ "\". " ++ v) ∧
    HOMEWORK_VERDICTS.map Prod.fst = ["approved", "reviewing", "rejected"] := by
  refine ⟨?_, rfl⟩
  have hk1 : hasKey d "homework_name" = true := hasKey_of_lookup h1
  have hk2 : hasKey d "status" = true := hasKey_of_lookup h2
  simp only [HOMEWORK_VERDICTS, List.mem_cons, List.not_mem_nil, or_false,
    Prod.mk.injEq] at h3
  rcases h3 with ⟨rfl, rfl⟩ | ⟨rfl, rfl⟩ | ⟨rfl, rfl⟩ <;>
  · unfold parse_status
    simp [pyContains, hk1, hk2, h1, h2, verdictFor, HOMEWORK_VERDICTS,
      List.find?, pyStr]

/-- Witness for `c6_success_message` at a concrete approved record. -/
theorem c6_success_message_witness :
    parse_status (.dict [("homework_name", .str "hw1"),
        ("status", .str "approved")]) =
      .ok ("Изменился статус проверки работы \"hw1\". Работа проверена: ревьюеру всё понравилось. Ура!") ∧
    HOMEWORK_VERDICTS.map Prod.fst = ["approved", "reviewing", "rejected"] :=
  c6_success_message [("homework_name", .str "hw1"), ("status", .str "approved")]
    "hw1" "approved" "Работа проверена: ревьюеру всё понравилось. Ура!"
    rfl rfl (by simp [HOMEWORK_VERDICTS])

/-- Claim C2, counterexample: a cycle in which the API Client and the
Response Validator both succeed (the response is a dict with a list
`homeworks` and a `current_date` of 3000) but the Status Interpreter
fails (`archived` status) ends with the cursor still at `1000`, not at
`current_date` — `timestamp = response['current_date']` sits after
`parse_status` inside the `try:` block and is skipped on its failure. -/
theorem c2_interpreter_failure_stalls_cursor :
    get_api_answer (.int 1000) 777 (.response 200 (.ok (.dict
        [("homeworks", .list [.dict [("homework_name", .str "hw2"),
            ("status", .str "archived")]]),
         ("current_date", .int 3000)]))) =
      .ok (.dict
        [("homeworks", .list [.dict [("homework_name", .str "hw2"),
            ("status", .str "archived")]]),
         ("current_date", .int 3000)]) ∧
    check_response (.dict
        [("homeworks", .list [.dict [("homework_name", .str "hw2"),
            ("status", .str "archived")]]),
         ("current_date", .int 3000)]) =
      .ok [.dict [("homework_name", .str "hw2"), ("status", .str "archived")]] ∧
    (mainCycle ⟨.int 1000, Option.none⟩ 777 (.response 200 (.ok (.dict
        [("homeworks", .list [.dict [("homework_name", .str "hw2"),
            ("status", .str "archived")]]),
         ("current_date", .int 3000)])))).1.timestamp = .int 1000 ∧
    (1000 : Int) ≠ 3000 :=
  ⟨by rfl, by rfl, by rfl, by decide⟩

/-- Claim C2 (amended): after a cycle whose response is a dict carrying
`current_date` and a list `homeworks`, the cursor equals `current_date`
exactly when the list is non-empty and interpreting its first record
succeeded; when interpretation fails — and also when the list is empty,
because of the stray `parse_status(homework)` call — the cursor is left
unchanged. -/
theorem c2_cursor_advance (st : BotState) (now : Int)
    (d : List (String × PyVal)) (cd : PyVal)
    (hcd : dictLookup d "current_date" = some cd) :
    (∀ hw t m, dictLookup d "homeworks" = some (.list (hw :: t)) →
      parse_status hw = .ok m →
      (mainCycle st now (.response 200 (.ok (.dict d)))).1.timestamp = cd) ∧
    (∀ hw t e, dictLookup d "homeworks" = some (.list (hw :: t)) →
      parse_status hw = .error e →
      (mainCycle st now (.response 200 (.ok (.dict d)))).1.timestamp =
        st.timestamp) ∧
    (dictLookup d "homeworks" = some (.list []) →
      (mainCycle st now (.response 200 (.ok (.dict d)))).1.timestamp =
        st.timestamp) := by
  have hga : get_api_answer st.timestamp now (.response 200 (.ok (.dict d))) =
      .ok (.dict d) := by
    have htry : get_api_answer_try st.timestamp now
        (.response 200 (.ok (.dict d))) = .ok (.dict d) := by
      unfold get_api_answer_try
      simp [pyContains, hasKey, hcd]
    rw [get_api_answer, htry]
  have hcr : ∀ xs, dictLookup d "homeworks" = some (.list xs) →
      check_response (.dict d) = .ok xs := by
    intro xs hl
    simp only [check_response]
    rw [if_neg (by simp [hasKey, hl]), hl]
  have hsub : pySubscript (.dict d) "current_date" = .ok cd := by
    simp [pySubscript, hcd]
  refine ⟨?_, ?_, ?_⟩
  · intro hw t m hl hps
    have hrun : runPipeline st.timestamp now (.response 200 (.ok (.dict d))) =
        (⟨[hw], [m]⟩, .ok cd) := by
      unfold runPipeline
      simp only [hga, hcr _ hl, hps, hsub]
    rw [mainCycle_ok hrun]
  · intro hw t e hl hps
    have hrun : runPipeline st.timestamp now (.response 200 (.ok (.dict d))) =
        (⟨[hw], []⟩, .error e) := by
      unfold runPipeline
      simp only [hga, hcr _ hl, hps]
    rw [mainCycle_error hrun]
    by_cases hm : st.lastError = some ("Сбой в работе программы: " ++ errText e)
    · rw [if_pos hm]
    · rw [if_neg hm]
  · intro hl
    have hrun : runPipeline st.timestamp now (.response 200 (.ok (.dict d))) =
        (⟨[.list []], []⟩,
         .error (.keyError "В ответе отсутствует ключ homework_name")) := by
      unfold runPipeline
      simp only [hga, hcr _ hl, parse_status_nil]
    rw [mainCycle_error hrun]
    by_cases hm : st.lastError = some ("Сбой в работе программы: " ++
        errText (.keyError "В ответе отсутствует ключ homework_name"))
    · rw [if_pos hm]
    · rw [if_neg hm]

/-- Witness for `c2_cursor_advance`: a successful approved record moves
the cursor to 1000; an empty `homeworks` list leaves it at 5. -/
theorem c2_cursor_advance_witness :
    (mainCycle ⟨.int 5, Option.none⟩ 777 (.response 200 (.ok (.dict
        [("homeworks", .list [.dict [("homework_name", .str "hw1"),
            ("status", .str "approved")]]),
         ("current_date", .int 1000)])))).1.timestamp = .int 1000 ∧
    (mainCycle ⟨.int 5, Option.none⟩ 777 (.response 200 (.ok (.dict
        [("homeworks", .list []),
         ("current_date", .int 2000)])))).1.timestamp = .int 5 :=
  ⟨(c2_cursor_advance ⟨.int 5, Option.none⟩ 777
      [("homeworks", .list [.dict [("homework_name", .str "hw1"),
          ("status", .str "approved")]]),
       ("current_date", .int 1000)] (.int 1000) rfl).1
      (.dict [("homework_name", .str "hw1"), ("status", .str "approved")]) []
      "Изменился статус проверки работы \"hw1\". Работа проверена: ревьюеру всё понравилось. Ура!"
      rfl (by rfl),
   (c2_cursor_advance ⟨.int 5, Option.none⟩ 777
      [("homeworks", .list []), ("current_date", .int 2000)]
      (.int 2000) rfl).2.2 rfl⟩

/-- Claim C3, counterexample: three consecutive cycles all failing with
byte-identical diagnostic text.  The 2nd and 3rd cycles form a pair of
consecutive cycles failing with byte-identical diagnostics across which
ZERO (not exactly one) notifications are sent — the memo already held
the message before the pair started.  The claim holds only for a pair
entered with a differing memo. -/
theorem c3_pair_with_no_notification :
    runCycles ⟨.int 1000, Option.none⟩
      [(1, .transportFail "conn"), (2, .transportFail "conn"),
       (3, .transportFail "conn")] =
    (⟨.int 1000,
      some "Сбой в работе программы: exceptions must derive from BaseException"⟩,
     [⟨[], ["Сбой в работе программы: exceptions must derive from BaseException"]⟩,
      ⟨[], []⟩,
      ⟨[], []⟩]) := rfl

/-- Claim C3 (amended): across two consecutive cycles whose pipelines
fail with byte-identical diagnostic text, provided the Last-Error Memo
before the first of them differs from that diagnostic, exactly one
error notification is sent: the first cycle notifies and stores the
message in the memo, the second suppresses. -/
theorem c3_duplicate_suppression (st : BotState) (n1 n2 : Int)
    (o1 o2 : HttpOutcome) (tr1 tr2 : CycleTrace) (e1 e2 : PyError)
    (h1 : runPipeline st.timestamp n1 o1 = (tr1, .error e1))
    (h2 : runPipeline st.timestamp n2 o2 = (tr2, .error e2))
    (hsame : errText e1 = errText e2)
    (hmemo : st.lastError ≠ some ("Сбой в работе программы: " ++ errText e1)) :
    (mainCycle st n1 o1).2.notifications =
      ["Сбой в работе программы: " ++ errText e1] ∧
    (mainCycle (mainCycle st n1 o1).1 n2 o2).2.notifications = [] ∧
    (mainCycle st n1 o1).1.lastError =
      some ("Сбой в работе программы: " ++ errText e1) := by
  have hn1 : tr1.notifications = [] := runPipeline_error_no_notification h1
  have hn2 : tr2.notifications = [] := runPipeline_error_no_notification h2
  set M : String := "Сбой в работе программы: " ++ errText e1 with hM
  have hc1 : mainCycle st n1 o1 =
      ({ st with lastError := some M },
       ⟨tr1.interpreterCalls, tr1.notifications ++ [M]⟩) := by
    rw [mainCycle_error h1, if_neg hmemo]
  refine ⟨?_, ?_, ?_⟩
  · rw [hc1, hn1]
    rfl
  · rw [hc1]
    have h2' : runPipeline ({ st with lastError := some M } :
        BotState).timestamp n2 o2 = (tr2, .error e2) := h2
    rw [mainCycle_error h2', if_pos (by rw [hM, hsame])]
    exact hn2
  · rw [hc1]

/-- Witness for `c3_duplicate_suppression`: two consecutive transport
failures starting from an empty memo. -/
theorem c3_duplicate_suppression_witness :
    (mainCycle ⟨.int 9, Option.none⟩ 1 (.transportFail "x")).2.notifications =
      ["Сбой в работе программы: exceptions must derive from BaseException"] ∧
    (mainCycle (mainCycle ⟨.int 9, Option.none⟩ 1 (.transportFail "x")).1 2
        (.transportFail "x")).2.notifications = [] ∧
    (mainCycle ⟨.int 9, Option.none⟩ 1 (.transportFail "x")).1.lastError =
      some "Сбой в работе программы: exceptions must derive from BaseException" :=
  c3_duplicate_suppression ⟨.int 9, Option.none⟩ 1 2
    (.transportFail "x") (.transportFail "x") ⟨[], []⟩ ⟨[], []⟩
    .raisedStr .raisedStr rfl rfl rfl (by simp)

end Homework
